import Mathlib

/-!
Shallow embedding of the Nova Sonic session protocol engine from `src/app.py`:
the `NovaSonicSession` state machine (`start_session`, `send_audio_chunk`,
`end_session`), the response dispatcher loop (`_process_responses`) and the
socket-level session registry handler (`handle_start_session`).

Network effects are made explicit: every outbound frame delivered to the
remote stream is recorded in a trace of `Ev` events, and the success or
failure of each `send_event` call (in Python, whether `stream.input_stream.send`
raises) is supplied by a list of Booleans consumed one per send, a missing
entry meaning success.  Fixed configuration payloads inside the JSON frames
(inference parameters, media types, sample rates) are constants in the source
and are not carried in the frame constructors; the fields that vary per
session (correlation names, role, content) are.
-/

namespace NovaSonic

/-- Outbound protocol frames built by `NovaSonicSession` and delivered through
`send_event`.  Each constructor corresponds to one JSON event body in
`src/app.py`; only the per-session fields are carried. -/
inductive Frame where
  | sessionStart
  | promptStart (promptName voiceId : String)
  | contentStartText (promptName contentName role : String)
  | textInput (promptName contentName content : String)
  | contentEnd (promptName contentName : String)
  | contentStartAudio (promptName contentName role : String)
  | audioInput (promptName contentName content : String)
  | promptEnd (promptName : String)
  | sessionEnd
  deriving DecidableEq, Repr

/-- Observable events of one session-machine operation: a frame successfully
sent on the remote stream, an assignment to `is_active`, closing the outbound
stream, spawning the response task, cancelling the response task. -/
inductive Ev where
  | sendF (f : Frame)
  | setActive (b : Bool)
  | closeStream
  | spawnTask
  | cancelTask
  deriving DecidableEq, Repr

/-- Scenario prompt for the vmware-migration key (verbatim from
`get_scenario_prompt`). -/
def vmwareMigrationPrompt : String :=
  "You are an experienced IT infrastructure manager at a mid-size company currently running VMware vSphere. You\x27re evaluating AWS for potential migration but have realistic concerns about cost, complexity, downtime, and staff training. \n\nYou should:\n- Ask specific technical questions about AWS services like VMware Cloud on AWS, EC2, EBS, and migration tools\n- Express concerns about licensing costs, data transfer, and ongoing operational expenses\n- Inquire about migration timelines, potential downtime, and rollback procedures\n- Be knowledgeable about your current infrastructure but cautious about making the switch\n- Show interest in hybrid solutions and gradual migration approaches\n- Keep responses conversational and realistic, 2-3 sentences typically\n- Start the conversation by introducing your situation and asking an opening question"

/-- Scenario prompt for the situational-fluency key (verbatim from
`get_scenario_prompt`); also the default for unrecognized keys. -/
def situationalFluencyPrompt : String :=
  "You are a technical decision maker and IT director at a company considering cloud adoption. You have realistic concerns about security, compliance, cost optimization, vendor lock-in, and integration with existing systems.\n\nYou should:\n- Challenge the AWS salesperson with thoughtful, well-informed questions\n- Ask about implementation complexity, staff training requirements, and ongoing support\n- Express concerns about data sovereignty, compliance requirements, and security controls\n- Inquire about long-term strategy, pricing predictability, and exit strategies\n- Be engaged and interested but appropriately skeptical and thorough in your evaluation\n- Keep responses conversational, 2-3 sentences typically\n- Start by introducing your role and primary concerns"

/-- Scenario prompt for the smb-prospecting key (verbatim from
`get_scenario_prompt`). -/
def smbProspectingPrompt : String :=
  "You are the owner/manager of a growing small business (50-100 employees) currently using basic on-premises IT infrastructure. You\x27re interested in cloud solutions to improve efficiency and reduce IT overhead, but you need simple explanations and are very cost-conscious.\n\nYou should:\n- Ask practical questions about implementation, ongoing costs, and day-to-day operations\n- Express concerns about complexity, staff training, and whether cloud is right for your size business\n- Inquire about what kind of support is available for smaller companies\n- Focus on business benefits rather than technical details\n- Be interested but need reassurance about costs, reliability, and ease of use\n- Keep responses conversational and practical, 2-3 sentences typically\n- Start by introducing your business and main challenges"

/-- The scenario prompt table of `NovaSonicSession.get_scenario_prompt`:
a dictionary lookup over the three keys with
`prompts.get(self.scenario, prompts[situational-fluency])` as the default. -/
def get_scenario_prompt (scenario : String) : String :=
  if scenario = "vmware-migration" then vmwareMigrationPrompt
  else if scenario = "situational-fluency" then situationalFluencyPrompt
  else if scenario = "smb-prospecting" then smbProspectingPrompt
  else situationalFluencyPrompt

/-- The three keys present in the `prompts` dictionary. -/
def validScenarios : List String :=
  ["vmware-migration", "situational-fluency", "smb-prospecting"]

/-- Mutable state of one `NovaSonicSession` object relevant to the outbound
state machine.  `stream_open` is `self.stream is not None`; `response_task`
is `self.response_task is not None`, with `task_done` its `.done()` flag;
`audio_input_started` models the presence of the `audio_input_started`
attribute set by `hasattr` / `delattr` tracking. -/
structure SessionState where
  session_id : String
  scenario : String
  voice_id : String
  prompt_name : String
  content_name : String
  audio_content_name : String
  stream_open : Bool
  response_task : Bool
  task_done : Bool
  is_active : Bool
  audio_input_started : Bool
  role : Option String
  display_assistant_text : Bool
  deriving DecidableEq, Repr

/-- The `NovaSonicSession.__init__` constructor: ids are assigned at creation,
`is_active` is false, `role` is `None`, `display_assistant_text` is false,
no stream, no response task, no `audio_input_started` attribute. -/
def mkSession (session_id scenario voice_id prompt_name content_name audio_content_name : String) :
    SessionState :=
  { session_id := session_id
    scenario := scenario
    voice_id := voice_id
    prompt_name := prompt_name
    content_name := content_name
    audio_content_name := audio_content_name
    stream_open := false
    response_task := false
    task_done := false
    is_active := false
    audio_input_started := false
    role := none
    display_assistant_text := false }

/-- Consume one send outcome from the environment list; an exhausted list
means the send succeeds. -/
def takeOk : List Bool → Bool × List Bool
  | [] => (true, [])
  | b :: bs => (b, bs)

/-- Send a list of frames in order through `send_event`, stopping at the first
raising send.  Returns the trace of frames actually delivered, the remaining
outcome list, and whether every send succeeded. -/
def sendSeq : List Frame → List Bool → List Ev × List Bool × Bool
  | [], oks => ([], oks, true)
  | f :: fs, oks =>
      let p := takeOk oks
      if p.1 then
        let r := sendSeq fs p.2
        (Ev.sendF f :: r.1, r.2.1, r.2.2)
      else ([], p.2, false)

/-- The five handshake frames of `start_session`, in source order:
sessionStart, promptStart, then the SYSTEM text content triple whose
textInput carries the scenario prompt. -/
def handshakeFrames (s : SessionState) : List Frame :=
  [ Frame.sessionStart,
    Frame.promptStart s.prompt_name s.voice_id,
    Frame.contentStartText s.prompt_name s.content_name "SYSTEM",
    Frame.textInput s.prompt_name s.content_name (get_scenario_prompt s.scenario),
    Frame.contentEnd s.prompt_name s.content_name ]

/-- The `NovaSonicSession.start_session` coroutine.  `openOk` is whether
client initialization and `invoke_model_with_bidirectional_stream` succeed;
`sendOks` supplies the outcome of each handshake `send_event`.  On open,
the source sets `self.is_active = True` before sending any frame; on success
it spawns the response task and returns `True`; on any exception the outer
handler sets `is_active = False` and returns `False`.  Result: final state,
event trace, returned Boolean. -/
def start_session (s : SessionState) (openOk : Bool) (sendOks : List Bool) :
    SessionState × List Ev × Bool :=
  if openOk then
    let s1 := { s with stream_open := true, is_active := true }
    let r := sendSeq (handshakeFrames s1) sendOks
    if r.2.2 then
      ({ s1 with response_task := true, task_done := false },
       Ev.setActive true :: r.1 ++ [Ev.spawnTask], true)
    else
      ({ s1 with is_active := false },
       Ev.setActive true :: r.1 ++ [Ev.setActive false], false)
  else
    ({ s with is_active := false }, [Ev.setActive false], false)

/-- The audio `contentStart` frame built by `start_audio_input` (role USER,
AUDIO type, fixed input audio configuration). -/
def startAudioFrame (s : SessionState) : Frame :=
  Frame.contentStartAudio s.prompt_name s.audio_content_name "USER"

/-- The `audioInput` frame built by `send_audio_chunk` for one base64 chunk. -/
def audioInputFrame (s : SessionState) (audio : String) : Frame :=
  Frame.audioInput s.prompt_name s.audio_content_name audio

/-- The `NovaSonicSession.send_audio_chunk` coroutine.  Returns `False`
without sending when the session is inactive.  When no audio block is open
it first runs `start_audio_input` (one send) and only then sets the
`audio_input_started` attribute, so a raising open leaves the attribute
unset; a raising `audioInput` send is caught and reported as `False`.
Result: final state, event trace, returned Boolean. -/
def send_audio_chunk (s : SessionState) (audio : String) (sendOks : List Bool) :
    SessionState × List Ev × Bool :=
  if !s.is_active then (s, [], false)
  else if !s.audio_input_started then
    let p := takeOk sendOks
    if !p.1 then (s, [], false)
    else
      let s1 := { s with audio_input_started := true }
      let q := takeOk p.2
      if !q.1 then (s1, [Ev.sendF (startAudioFrame s)], false)
      else (s1, [Ev.sendF (startAudioFrame s), Ev.sendF (audioInputFrame s audio)], true)
  else
    let p := takeOk sendOks
    if !p.1 then (s, [], false)
    else (s, [Ev.sendF (audioInputFrame s audio)], true)

/-- Teardown steps of `end_session` after the audio-block handling:
send promptEnd, send sessionEnd, close the stream if set, cancel the
response task if present and not done.  `s1` is the session state entering
these steps (never modified by them), `tr1` the trace so far, `oks1` the
remaining send outcomes.  An exception at any step jumps to the handler of
the single try block wrapping all of `end_session`, skipping the rest. -/
def endRestTrace (s1 : SessionState) (tr1 : List Ev) (oks1 : List Bool) (closeOk : Bool) :
    List Ev :=
  let p2 := takeOk oks1
  if !p2.1 then tr1
  else
    let tr2 := tr1 ++ [Ev.sendF (Frame.promptEnd s1.prompt_name)]
    let p3 := takeOk p2.2
    if !p3.1 then tr2
    else
      let tr3 := tr2 ++ [Ev.sendF Frame.sessionEnd]
      if s1.stream_open then
        if !closeOk then tr3
        else
          let tr4 := tr3 ++ [Ev.closeStream]
          if s1.response_task && !s1.task_done then tr4 ++ [Ev.cancelTask]
          else tr4
      else
        if s1.response_task && !s1.task_done then tr3 ++ [Ev.cancelTask]
        else tr3

/-- The session state is untouched by the post-audio teardown steps; they
only extend the trace. -/
def endRest (s1 : SessionState) (tr1 : List Ev) (oks1 : List Bool) (closeOk : Bool) :
    SessionState × List Ev :=
  (s1, endRestTrace s1 tr1 oks1 closeOk)

/-- The `NovaSonicSession.end_session` coroutine.  A no-op when already
inactive; otherwise sets `is_active = False` first, then — inside a single
try block whose handler only logs — ends the audio input if open, sends
promptEnd, sends sessionEnd, closes the stream if set, and cancels the
response task if present and not done.  An exception at any step transfers
directly to the handler, skipping every remaining step.  In `end_audio_input`
the attribute is removed only after its `contentEnd` send returns, so a
raising send keeps `audio_input_started` set.  `closeOk` is whether
`stream.input_stream.close()` succeeds.  Result: final state, event trace. -/
def end_session (s : SessionState) (sendOks : List Bool) (closeOk : Bool) :
    SessionState × List Ev :=
  if !s.is_active then (s, [])
  else
    let s0 := { s with is_active := false }
    if s0.audio_input_started then
      let p := takeOk sendOks
      if !p.1 then (s0, [Ev.setActive false])
      else
        endRest { s0 with audio_input_started := false }
          [Ev.setActive false,
           Ev.sendF (Frame.contentEnd s0.prompt_name s0.audio_content_name)]
          p.2 closeOk
    else endRest s0 [Ev.setActive false] sendOks closeOk

/-- Decoded form of the `additionalModelFields` string carried by an inbound
`contentStart` frame: the `json.loads` of it raises, or it decodes with a
`generationStage` value, or it decodes without one. -/
inductive MetaField where
  | malformed
  | stage (s : String)
  | noStage
  deriving DecidableEq, Repr

/-- One inbound frame as seen by `_process_responses` after
`result.value.bytes_.decode` — either undecodable JSON (`json.loads` raises),
or a decoded event of one of the handled shapes, or an event of another
type, or an empty chunk (`result.value` or `bytes_` falsy). -/
inductive InFrame where
  | malformed
  | contentStart (role : String) (meta : Option MetaField)
  | textOutput (content : String)
  | audioOutput (content : String) (b64ok : Bool)
  | other
  | empty
  deriving DecidableEq, Repr

/-- A socketio event emitted to the web client by the dispatcher. -/
inductive Emit where
  | ai_text (text session_id : String)
  | user_text (text session_id : String)
  | ai_audio (audio session_id : String)
  deriving DecidableEq, Repr

/-- Dispatcher-visible state: the loop reads `is_active` as its condition and
the frame handlers read and write `role` and `display_assistant_text`. -/
structure DState where
  is_active : Bool
  role : Option String
  display_assistant_text : Bool
  deriving DecidableEq, Repr

/-- The body of `_process_responses` for one inbound frame: the updated
state, the socketio events emitted, and whether an exception was raised
(ending the loop, since the whole loop sits in one try block).
contentStart overwrites `role` and, only when `additionalModelFields` is
present, recomputes `display_assistant_text` (true iff the decoded
`generationStage` equals SPECULATIVE, false on decode failure); textOutput
forwards to the client by role; audioOutput base64-decodes for validation
and forwards the original payload; other event types are ignored. -/
def processFrame (session_id : String) (st : DState) :
    InFrame → DState × List Emit × Bool
  | InFrame.malformed => (st, [], true)
  | InFrame.contentStart role meta =>
      let dat :=
        match meta with
        | none => st.display_assistant_text
        | some MetaField.malformed => false
        | some (MetaField.stage g) => g = "SPECULATIVE"
        | some MetaField.noStage => false
      ({ st with role := some role, display_assistant_text := dat }, [], false)
  | InFrame.textOutput content =>
      if st.role = some "ASSISTANT" ∧ st.display_assistant_text then
        (st, [Emit.ai_text content session_id], false)
      else if st.role = some "USER" then
        (st, [Emit.user_text content session_id], false)
      else (st, [], false)
  | InFrame.audioOutput content b64ok =>
      if b64ok then (st, [Emit.ai_audio content session_id], false)
      else (st, [], true)
  | InFrame.other => (st, [], false)
  | InFrame.empty => (st, [], false)

/-- The `while self.is_active` loop of `_process_responses` over a finite
inbound stream (the list ending models end of data).  The first raised
exception is caught by the handler around the whole loop, which logs and
returns, so processing stops there. -/
def runDispatcher (session_id : String) : DState → List InFrame → DState × List Emit
  | st, [] => (st, [])
  | st, f :: rest =>
      if !st.is_active then (st, [])
      else
        let r := processFrame session_id st f
        if r.2.2 then (r.1, r.2.1)
        else
          let r2 := runDispatcher session_id r.1 rest
          (r2.1, r.2.1 ++ r2.2)

/-- A socket event emitted to the originating client by
`handle_start_session`. -/
inductive ClientEv where
  | session_started (session_id scenario voice : String)
  | session_error (error : String)
  deriving DecidableEq, Repr

/-- The `active_sessions` global table, keyed by session id. -/
def Registry := List (String × SessionState)

/-- Lookup in the `active_sessions` table. -/
def Registry.find (reg : Registry) (session_id : String) : Option SessionState :=
  List.lookup session_id reg

/-- The `handle_start_session` socket handler: constructs the session,
stores it in `active_sessions`, then runs `start_session` on a background
thread and emits `session_started` on success or `session_error` on failure.
The handler never removes the entry when the start fails.  The result pairs
the registry after the background thread finishes (holding the mutated
session object) with the events emitted to the client. -/
def handle_start_session (reg : Registry)
    (session_id scenario voice prompt_name content_name audio_content_name : String)
    (openOk : Bool) (sendOks : List Bool) : Registry × List ClientEv :=
  let s := mkSession session_id scenario voice prompt_name content_name audio_content_name
  let r := start_session s openOk sendOks
  ((session_id, r.1) :: reg,
   if r.2.2 then [ClientEv.session_started session_id scenario voice]
   else [ClientEv.session_error "Failed to start Nova Sonic session"])

/-! Helper lemmas shared by the claim theorems. -/

/-- The post-audio teardown steps never modify the session state. -/
theorem endRest_fst (s1 : SessionState) (tr1 : List Ev) (oks1 : List Bool) (ck : Bool) :
    (endRest s1 tr1 oks1 ck).1 = s1 := rfl

/-- After any call to `end_session`, the session is inactive: either it
already was, or `is_active` is assigned false before the first teardown
step, inside no conditional that could skip it. -/
theorem end_session_inactive_after (s : SessionState) (oks : List Bool) (ck : Bool) :
    (end_session s oks ck).1.is_active = false := by
  by_cases h : s.is_active
  · by_cases ha : s.audio_input_started <;>
      by_cases hp : (takeOk oks).1 <;>
        simp [end_session, endRest, h, ha, hp]
  · simp [end_session, h]

/-- A call to `end_session` on an inactive session is the early-return
no-op of the source. -/
theorem end_session_noop (t : SessionState) (h : t.is_active = false)
    (oks : List Bool) (ck : Bool) :
    end_session t oks ck = (t, []) := by
  simp [end_session, h]

/-- When `start_session` returns `False`, the exception handler has set
`is_active` to false. -/
theorem start_session_fail_inactive (s : SessionState) (openOk : Bool) (oks : List Bool)
    (h : (start_session s openOk oks).2.2 = false) :
    (start_session s openOk oks).1.is_active = false := by
  by_cases ho : openOk
  · by_cases hs : (sendSeq (handshakeFrames { s with stream_open := true, is_active := true }) oks).2.2
    · simp [start_session, ho, hs] at h
    · simp [start_session, ho, hs]
  · simp [start_session, ho]

/-- C4: for a text-output frame, USER-role text is always forwarded to the
client as a user-transcript event, regardless of `display_assistant_text`;
ASSISTANT-role text is forwarded as an assistant-text event exactly when
`display_assistant_text` is true and dropped otherwise. -/
theorem textOutput_role_forwarding (sid : String) (st : DState) (text : String) :
    (st.role = some "USER" →
      (processFrame sid st (InFrame.textOutput text)).2.1 = [Emit.user_text text sid]) ∧
    (st.role = some "ASSISTANT" →
      (processFrame sid st (InFrame.textOutput text)).2.1 =
        (if st.display_assistant_text then [Emit.ai_text text sid] else [])) := by
  constructor
  · intro h
    simp [processFrame, h]
  · intro h
    by_cases hd : st.display_assistant_text <;> simp [processFrame, h, hd]

/-- C4 witness: a USER-role text frame is forwarded even with
`display_assistant_text` false. -/
theorem textOutput_role_forwarding_witness :
    (processFrame "s" ⟨true, some "USER", false⟩ (InFrame.textOutput "hi")).2.1 =
      [Emit.user_text "hi" "s"] :=
  (textOutput_role_forwarding "s" ⟨true, some "USER", false⟩ "hi").1 rfl

/-- C10: a text-output frame whose current role is neither ASSISTANT nor
USER (for example SYSTEM, or no content-start seen yet) is silently
dropped: nothing is emitted, the state is unchanged, no exception. -/
theorem textOutput_other_role_dropped (sid : String) (st : DState) (text : String)
    (h1 : st.role ≠ some "ASSISTANT") (h2 : st.role ≠ some "USER") :
    processFrame sid st (InFrame.textOutput text) = (st, [], false) := by
  simp [processFrame, h1, h2]

/-- C10 witness: SYSTEM-role text is dropped even with
`display_assistant_text` true. -/
theorem textOutput_other_role_dropped_witness :
    processFrame "s" ⟨true, some "SYSTEM", true⟩ (InFrame.textOutput "hi") =
      (⟨true, some "SYSTEM", true⟩, [], false) :=
  textOutput_other_role_dropped "s" ⟨true, some "SYSTEM", true⟩ "hi"
    (by decide) (by decide)

/-- C7: on an active session with no open audio block, two consecutive
`send_audio_chunk` calls (all sends succeeding) produce exactly one audio
contentStart frame followed by two audioInput frames, in that order, and
both calls return `True`. -/
theorem send_audio_chunk_twice (s : SessionState) (a1 a2 : String)
    (hact : s.is_active = true) (hopen : s.audio_input_started = false) :
    (send_audio_chunk s a1 []).2.1 ++
        (send_audio_chunk (send_audio_chunk s a1 []).1 a2 []).2.1 =
      [Ev.sendF (startAudioFrame s), Ev.sendF (audioInputFrame s a1),
       Ev.sendF (audioInputFrame s a2)] ∧
    (send_audio_chunk s a1 []).2.2 = true ∧
    (send_audio_chunk (send_audio_chunk s a1 []).1 a2 []).2.2 = true := by
  refine ⟨?_, ?_, ?_⟩ <;>
    simp [send_audio_chunk, hact, hopen, takeOk, startAudioFrame, audioInputFrame]

/-- A session object after a successful handshake, with no audio block
open: the shape produced by `start_session` on a fresh session. -/
def sActive : SessionState :=
  { mkSession "sid" "vmware-migration" "matthew" "p" "c" "a" with
      is_active := true, stream_open := true, response_task := true }

/-- C7 witness: the two calls evaluated on a concrete active session. -/
theorem send_audio_chunk_twice_witness :
    (send_audio_chunk sActive "a1" []).2.1 ++
        (send_audio_chunk (send_audio_chunk sActive "a1" []).1 "a2" []).2.1 =
      [Ev.sendF (startAudioFrame sActive), Ev.sendF (audioInputFrame sActive "a1"),
       Ev.sendF (audioInputFrame sActive "a2")] ∧
    (send_audio_chunk sActive "a1" []).2.2 = true ∧
    (send_audio_chunk (send_audio_chunk sActive "a1" []).1 "a2" []).2.2 = true :=
  send_audio_chunk_twice sActive "a1" "a2" rfl rfl

/-- C8: `send_audio_chunk` on an inactive session — in particular on any
session on which `end_session` has run — returns `False`, sends no frames,
leaves the state unchanged, and raises nothing (the embedding is a total
function; the source catches any exception and returns `False`). -/
theorem send_audio_chunk_inactive (s t : SessionState) (a b : String)
    (oks oks2 endOks : List Bool) (ck : Bool) (h : s.is_active = false) :
    send_audio_chunk s a oks = (s, [], false) ∧
    send_audio_chunk (end_session t endOks ck).1 b oks2 =
      ((end_session t endOks ck).1, [], false) := by
  constructor
  · simp [send_audio_chunk, h]
  · simp [send_audio_chunk, end_session_inactive_after]

/-- C8 witness: a fresh (never-started) session and a just-ended session,
both refusing audio. -/
theorem send_audio_chunk_inactive_witness :
    send_audio_chunk (mkSession "sid" "x" "v" "p" "c" "a") "a" [] =
      ((mkSession "sid" "x" "v" "p" "c" "a"), [], false) ∧
    send_audio_chunk (end_session sActive [] true).1 "b" [] =
      ((end_session sActive [] true).1, [], false) :=
  send_audio_chunk_inactive (mkSession "sid" "x" "v" "p" "c" "a") sActive
    "a" "b" [] [] [] true rfl

/-- C9: `end_session` is idempotent — after one call has completed, the
session is inactive, so a second call takes the early return, sending no
frames, changing nothing, and raising no error. -/
theorem end_session_idempotent (s : SessionState) (oks oks2 : List Bool) (ck ck2 : Bool) :
    end_session (end_session s oks ck).1 oks2 ck2 = ((end_session s oks ck).1, []) :=
  end_session_noop _ (end_session_inactive_after s oks ck) oks2 ck2

/-- Recognizer for the sends of the five handshake frames of `start()`. -/
def isHandshakeSend : Ev → Bool
  | Ev.sendF Frame.sessionStart => true
  | Ev.sendF (Frame.promptStart _ _) => true
  | Ev.sendF (Frame.contentStartText _ _ _) => true
  | Ev.sendF (Frame.textInput _ _ _) => true
  | Ev.sendF (Frame.contentEnd _ _) => true
  | _ => false

/-- The activation-ordering part of C1 as stated: every `setActive true`
event in the trace comes strictly after every handshake frame send. -/
def activeOnlyAfterHandshake (tr : List Ev) : Prop :=
  ∀ i j, tr.get? i = some (Ev.setActive true) →
    Option.any isHandshakeSend (tr.get? j) = true → j < i

/-- A freshly constructed session used as concrete input. -/
def sFresh : SessionState := mkSession "sid" "vmware-migration" "matthew" "p" "c" "a"

/-- C1 counterexample: on a fresh session with a healthy stream, the trace
of `start_session` places `setActive true` (index 0) before the
sessionStart send (index 1); the session is active throughout the
handshake, not only after it — the source sets `self.is_active = True`
right after opening the stream. -/
theorem start_session_active_before_handshake :
    ¬ activeOnlyAfterHandshake (start_session sFresh true []).2.1 := by
  intro h
  have h01 := h 0 1 (by decide) (by decide)
  omega

/-- C1 (amended): for every valid scenario key, given a healthy stream with
all sends succeeding, start() sends exactly one sessionStart, then one
promptStart, then the SYSTEM content triple whose textInput carries the
scenario prompt, strictly in that order, spawns the response task and
returns True with the session active — but `is_active` is set true
immediately after the stream opens, before the handshake frames are sent,
not after the handshake completes. -/
theorem start_session_handshake (sid scen voice pn cn an : String)
    (hscen : scen ∈ validScenarios) :
    start_session (mkSession sid scen voice pn cn an) true [] =
      ({ mkSession sid scen voice pn cn an with
           stream_open := true, is_active := true, response_task := true },
       [Ev.setActive true,
        Ev.sendF Frame.sessionStart,
        Ev.sendF (Frame.promptStart pn voice),
        Ev.sendF (Frame.contentStartText pn cn "SYSTEM"),
        Ev.sendF (Frame.textInput pn cn (get_scenario_prompt scen)),
        Ev.sendF (Frame.contentEnd pn cn),
        Ev.spawnTask], true) := by
  simp [start_session, handshakeFrames, sendSeq, takeOk, mkSession]

/-- C1 witness: the handshake evaluated for the smb-prospecting scenario. -/
theorem start_session_handshake_witness :
    start_session (mkSession "sid" "smb-prospecting" "Joanna" "p" "c" "a") true [] =
      ({ mkSession "sid" "smb-prospecting" "Joanna" "p" "c" "a" with
           stream_open := true, is_active := true, response_task := true },
       [Ev.setActive true,
        Ev.sendF Frame.sessionStart,
        Ev.sendF (Frame.promptStart "p" "Joanna"),
        Ev.sendF (Frame.contentStartText "p" "c" "SYSTEM"),
        Ev.sendF (Frame.textInput "p" "c" (get_scenario_prompt "smb-prospecting")),
        Ev.sendF (Frame.contentEnd "p" "c"),
        Ev.spawnTask], true) :=
  start_session_handshake "sid" "smb-prospecting" "Joanna" "p" "c" "a" (by decide)

/-- An active session with an open audio content block, an open stream and
a live response task: the configuration C2 speaks about. -/
def sOpenAudio : SessionState :=
  { mkSession "sid" "vmware-migration" "matthew" "p" "c" "a" with
      is_active := true, stream_open := true, response_task := true,
      audio_input_started := true }

/-- C2 counterexample: when the audio contentEnd send fails, `end_session`
sends none of the subsequent closing frames, does not close the stream and
does not cancel the response task — the single try block aborts the whole
teardown at the first raising step, contrary to the claimed best-effort
behavior. -/
theorem end_session_abort_on_failure :
    (end_session sOpenAudio [false] true).2 = [Ev.setActive false] ∧
    Ev.sendF (Frame.promptEnd "p") ∉ (end_session sOpenAudio [false] true).2 ∧
    Ev.sendF Frame.sessionEnd ∉ (end_session sOpenAudio [false] true).2 ∧
    Ev.closeStream ∉ (end_session sOpenAudio [false] true).2 ∧
    Ev.cancelTask ∉ (end_session sOpenAudio [false] true).2 := by
  decide

/-- C2 (amended): on an active session with an open audio block, when every
teardown step succeeds, end() sends the audio contentEnd, then promptEnd,
then sessionEnd, in that strict order, then closes the stream and cancels
the response task; a failure in any step aborts the remaining steps (they
are skipped, not attempted), but in every case the session has already been
marked inactive and no exception reaches the caller. -/
theorem end_session_teardown (s : SessionState)
    (hact : s.is_active = true) (haud : s.audio_input_started = true)
    (hstream : s.stream_open = true) (htask : s.response_task = true)
    (hdone : s.task_done = false) :
    end_session s [] true =
      ({ s with is_active := false, audio_input_started := false },
       [Ev.setActive false,
        Ev.sendF (Frame.contentEnd s.prompt_name s.audio_content_name),
        Ev.sendF (Frame.promptEnd s.prompt_name),
        Ev.sendF Frame.sessionEnd,
        Ev.closeStream, Ev.cancelTask]) ∧
    ∀ oks ck, (end_session s oks ck).1.is_active = false := by
  refine ⟨?_, fun oks ck => end_session_inactive_after s oks ck⟩
  simp [end_session, endRest, endRestTrace, takeOk, hact, haud, hstream, htask, hdone]

/-- C2 witness: the full teardown evaluated on a concrete session with an
open audio block. -/
theorem end_session_teardown_witness :
    end_session sOpenAudio [] true =
      ({ sOpenAudio with is_active := false, audio_input_started := false },
       [Ev.setActive false,
        Ev.sendF (Frame.contentEnd sOpenAudio.prompt_name sOpenAudio.audio_content_name),
        Ev.sendF (Frame.promptEnd sOpenAudio.prompt_name),
        Ev.sendF Frame.sessionEnd,
        Ev.closeStream, Ev.cancelTask]) ∧
    ∀ oks ck, (end_session sOpenAudio oks ck).1.is_active = false :=
  end_session_teardown sOpenAudio rfl rfl rfl rfl rfl

/-- C3 counterexample: a malformed frame followed by a USER text frame — the
user transcript of the second frame is never forwarded, because the decode
failure ends the dispatcher loop instead of dropping only that frame. -/
theorem dispatcher_malformed_drops_rest :
    Emit.user_text "hi" "s" ∉
      (runDispatcher "s" ⟨true, some "USER", false⟩
        [InFrame.malformed, InFrame.textOutput "hi"]).2 := by
  decide

/-- C3 (amended): a malformed (undecodable) frame terminates the dispatcher
loop: the `json.loads` exception is caught by the handler around the whole
loop, which logs and returns, so every subsequent frame of the session goes
unprocessed and nothing more is forwarded to the client; the session state,
including `is_active`, is left unchanged by the decode failure. -/
theorem dispatcher_malformed_terminates (sid : String) (st : DState)
    (rest : List InFrame) (hact : st.is_active = true) :
    runDispatcher sid st (InFrame.malformed :: rest) = (st, []) := by
  simp [runDispatcher, processFrame, hact]

/-- C3 witness: the terminated loop evaluated on a concrete state and
tail. -/
theorem dispatcher_malformed_terminates_witness :
    runDispatcher "s" ⟨true, some "USER", false⟩
        [InFrame.malformed, InFrame.other] =
      (⟨true, some "USER", false⟩, []) :=
  dispatcher_malformed_terminates "s" ⟨true, some "USER", false⟩ [InFrame.other] rfl

/-- C5 counterexample: a contentStart frame carrying no generation-stage
metadata processed while `display_assistant_text` is true leaves it true —
the source only reassigns the flag inside the
`additionalModelFields in content_start` branch, so it is not reset to
false when the metadata is absent. -/
theorem contentStart_absent_metadata_keeps_flag :
    ¬ ((processFrame "s" ⟨true, some "ASSISTANT", true⟩
          (InFrame.contentStart "ASSISTANT" none)).1.display_assistant_text = false) := by
  decide

/-- C5 (amended): after a contentStart frame is processed, if the frame
carried generation-stage metadata then `display_assistant_text` is true iff
that metadata decoded with stage SPECULATIVE (false on decode failure or
any other stage); if the metadata is absent, `display_assistant_text` is
left unchanged from its previous value. -/
theorem contentStart_display_gate (sid : String) (st : DState) (role : String)
    (meta : Option MetaField) :
    (meta ≠ none →
      ((processFrame sid st (InFrame.contentStart role meta)).1.display_assistant_text
          = true ↔
        meta = some (MetaField.stage "SPECULATIVE"))) ∧
    (meta = none →
      (processFrame sid st (InFrame.contentStart role meta)).1.display_assistant_text
        = st.display_assistant_text) := by
  constructor
  · intro hne
    match meta with
    | none => exact absurd rfl hne
    | some MetaField.malformed => simp [processFrame]
    | some (MetaField.stage g) => simp [processFrame]
    | some MetaField.noStage => simp [processFrame]
  · intro he
    subst he
    simp [processFrame]

/-- C5 witness: SPECULATIVE metadata turns the gate on. -/
theorem contentStart_display_gate_witness :
    (processFrame "s" ⟨true, none, false⟩
        (InFrame.contentStart "ASSISTANT"
          (some (MetaField.stage "SPECULATIVE")))).1.display_assistant_text = true :=
  ((contentStart_display_gate "s" ⟨true, none, false⟩ "ASSISTANT"
      (some (MetaField.stage "SPECULATIVE"))).1 (by decide)).mpr rfl

/-- C6 counterexample: when the remote stream cannot be opened, the failed
session is still present in `active_sessions` afterwards — the handler
stores the session before starting it and never removes it on failure. -/
theorem failed_start_stays_in_registry :
    ¬ (Registry.find
        (handle_start_session [] "s1" "vmware-migration" "matthew" "p" "c" "a"
          false []).1 "s1" = none) := by
  decide

/-- C6 (amended): when session initialization fails, the stored session is
not active and the originating client receives exactly one session_error
event, but the failed session remains in the session registry (the handler
never removes it on a failed start). -/
theorem handle_start_session_failure (reg : Registry)
    (sid scen voice pn cn an : String) (openOk : Bool) (sendOks : List Bool)
    (hfail : (start_session (mkSession sid scen voice pn cn an) openOk sendOks).2.2
      = false) :
    (handle_start_session reg sid scen voice pn cn an openOk sendOks).2 =
      [ClientEv.session_error "Failed to start Nova Sonic session"] ∧
    Registry.find (handle_start_session reg sid scen voice pn cn an openOk sendOks).1
        sid =
      some (start_session (mkSession sid scen voice pn cn an) openOk sendOks).1 ∧
    (start_session (mkSession sid scen voice pn cn an) openOk sendOks).1.is_active
      = false := by
  refine ⟨?_, ?_, start_session_fail_inactive _ _ _ hfail⟩
  · simp [handle_start_session, hfail]
  · simp [handle_start_session, Registry.find, List.lookup]

/-- C6 witness: a failed stream open evaluated concretely. -/
theorem handle_start_session_failure_witness :
    (handle_start_session [] "s1" "situational-fluency" "matthew" "p" "c" "a"
        false []).2 =
      [ClientEv.session_error "Failed to start Nova Sonic session"] ∧
    Registry.find (handle_start_session [] "s1" "situational-fluency" "matthew"
        "p" "c" "a" false []).1 "s1" =
      some (start_session
        (mkSession "s1" "situational-fluency" "matthew" "p" "c" "a") false []).1 ∧
    (start_session (mkSession "s1" "situational-fluency" "matthew" "p" "c" "a")
        false []).1.is_active = false :=
  handle_start_session_failure [] "s1" "situational-fluency" "matthew" "p" "c" "a"
    false [] (by decide)

end NovaSonic
